import Mathlib

set_option maxRecDepth 16000

/-!
Shallow embedding of the particle animation engine of the log-visualization
repository (the lane + barrier + feed-glow canvas component: `getUrlLane`,
`createParticle`, `updateParticle`, `updateFeedGlow`, and the `animate`
frame loop), together with proofs settling the frozen claims about it.

Conventions of the embedding:
* JS numbers are modelled as rationals (`ℚ`); all arithmetic appearing in the
  source is exact in IEEE doubles only up to rounding, but every claim here is
  about order comparisons, small integer counters and exact algebraic
  identities of the source expressions, which the rational model reflects.
  The one JS artefact that matters — division by a non-positive duration in
  `updateFeedGlow` — is reproduced exactly for negative durations (finite
  division); theorems about glow completion therefore carry a
  `startY > targetY` (positive-duration) side condition where needed.
* `Date.now()` is modelled by an explicit `now : ℚ` argument (milliseconds),
  `Math.random()` draws by explicit `Draws` arguments, and the random feed-glow
  id by an explicit `gid : String` argument.
* Mutation of a particle/effect is modelled by returning the updated record;
  the counter increments performed inside `updateParticle` / `updateFeedGlow`
  are returned as extra components.
-/

/-- The 32-bit signed-integer coercion `ToInt32` of JS; `x & 0xffffffff`
in the source is exactly this map (bitwise AND with `-1` on int32). -/
def toInt32 (n : ℤ) : ℤ := (n + 2 ^ 31) % 2 ^ 32 - 2 ^ 31

/-- One step of the string hash of `getUrlLane`:
`((hash << 5) - hash + char.charCodeAt(0)) & 0xffffffff`.
`hash << 5` is `toInt32 (toInt32 hash * 32)` and the final `& 0xffffffff`
is `toInt32` of the (exact) sum. -/
def jsHashStep (h : ℤ) (c : Char) : ℤ :=
  toInt32 (toInt32 (toInt32 h * 32) - h + (c.toNat : ℤ))

/-- Model of `getUrlLane` on the underlying character list: strip everything from the
first `'?'` on (`url.split('?')[0]`), fold the hash over the remaining
characters starting from 0, return `Math.abs(hash) % 8`. -/
def getUrlLaneList (cs : List Char) : ℕ :=
  let baseUrl := cs.takeWhile (fun c => c != '?')
  let urlHash := baseUrl.foldl jsHashStep 0
  urlHash.natAbs % 8

/-- Model of `getUrlLane` from the canvas component (URL to lane mapping). -/
def getUrlLane (url : String) : ℕ := getUrlLaneList url.data

/-- Model of `getStatusColor` from `logGenerator.ts`. -/
def getStatusColor (statusCode : ℤ) : String :=
  if 200 ≤ statusCode ∧ statusCode < 300 then "hsl(var(--success))"
  else if 300 ≤ statusCode ∧ statusCode < 400 then "hsl(var(--redirect))"
  else if 400 ≤ statusCode ∧ statusCode < 500 then "hsl(var(--error))"
  else if 500 ≤ statusCode then "hsl(var(--server-error))"
  else "hsl(var(--foreground))"

/-- Model of `LogEntry` from `types/log.ts` (timestamp as milliseconds). -/
structure LogEntry where
  id : String
  ip : String
  timestamp : ℚ
  method : String
  url : String
  statusCode : ℤ
  userAgent : String
  responseTime : Option ℚ
  bytes : Option ℚ
deriving DecidableEq, Repr

/-- A trail point `{x, y, opacity}`. -/
structure TrailPoint where
  x : ℚ
  y : ℚ
  opacity : ℚ
deriving DecidableEq, Repr

/-- The particle phase `'moving' | 'blocked' | 'exploding'`. -/
inductive Phase where
  | moving
  | blocked
  | exploding
deriving DecidableEq, Repr

/-- Model of `LogParticle` as constructed and mutated by the canvas component. -/
structure Particle where
  id : String
  x : ℚ
  y : ℚ
  targetX : ℚ
  targetY : ℚ
  color : String
  size : ℚ
  speed : ℚ
  log : LogEntry
  trail : List TrailPoint
  isAlive : Bool
  glowIntensity : ℚ
  phase : Phase
  laneIndex : ℕ
  showingStatus : Bool
  statusDisplayTime : ℚ
  statusStickX : ℚ
  statusStartY : ℚ
  statusCurrentY : ℚ
  hasShownStatus : Bool
deriving DecidableEq, Repr

/-- Model of `FeedGlow` (laser-beam effect record). -/
structure FeedGlow where
  id : String
  x : ℚ
  y : ℚ
  startY : ℚ
  targetY : ℚ
  opacity : ℚ
  size : ℚ
  color : String
  speed : ℚ
  isAlive : Bool
  progress : ℚ
  startTime : ℚ
deriving DecidableEq, Repr

/-- The four `Math.random()` draws consumed by `createParticle`, in source
order: lane-Y randomization, size, speed, glow intensity. -/
structure Draws where
  r1 : ℚ
  r2 : ℚ
  r3 : ℚ
  r4 : ℚ
deriving DecidableEq, Repr

/-- Model of `createParticle` from the canvas component. `w`/`h` are the canvas
dimensions, `mult` the global speed multiplier (`speedRef.current`) read at
creation time. -/
def createParticle (w h mult : ℚ) (lg : LogEntry) (d : Draws) : Particle :=
  let laneIndex := getUrlLane lg.url
  let laneHeight := h / 8
  let laneTop := (laneIndex : ℚ) * laneHeight
  let laneBottom := ((laneIndex : ℚ) + 1) * laneHeight
  let lanePadding : ℚ := 8
  let minY := laneTop + lanePadding
  let maxY := laneBottom - lanePadding
  let randomY := minY + d.r1 * (maxY - minY)
  let startX : ℚ := -20
  let startY := randomY
  let barrierX := w / 2
  let targetX := if lg.statusCode < 400 then w + 20 else barrierX
  let targetY := startY
  { id := lg.id
    x := startX
    y := startY
    targetX := targetX
    targetY := targetY
    color := "#888888"
    size := d.r2 * 3 + 4
    speed := (d.r3 * 2 + 3) * mult
    log := lg
    trail := []
    isAlive := true
    glowIntensity := d.r4 * (1/2) + 1/2
    phase := Phase.moving
    laneIndex := laneIndex
    showingStatus := false
    statusDisplayTime := 0
    statusStickX := 0
    statusStartY := 0
    statusCurrentY := 0
    hasShownStatus := false }

/-- The trail maintenance block of `updateParticle`: push the current
position with opacity 1, `shift()` the oldest entry once the length exceeds
10, then reset every point's opacity to the ramp
`(index + 1) / trail.length * 0.8`. -/
def trailStep (t : List TrailPoint) (x y : ℚ) : List TrailPoint :=
  let t1 := t ++ [⟨x, y, 1⟩]
  let t2 := if 10 < t1.length then t1.tail else t1
  t2.mapIdx fun i pt => { pt with opacity := ((i : ℚ) + 1) / (t2.length : ℚ) * (4/5) }

/-- The explosion branch of `updateParticle`: grow the size, decay the glow,
mark not-alive past the caps. The particle does not move and nothing else
changes. -/
def explodeStep (dt : ℚ) (p : Particle) : Particle :=
  let size := p.size + dt * 30
  let glow := p.glowIntensity - dt * (3/2)
  { p with
      size := size
      glowIntensity := glow
      isAlive := if 50 < size ∨ glow ≤ 0 then false else p.isAlive }

/-- The status-callout arming block of `updateParticle`: the first time the
(already moved) particle sits at or past the barrier while still `moving` and
`hasShownStatus` is unset, resolve the display color and arm the one-shot
callout. -/
def armStatus (barrierX : ℚ) (p : Particle) : Particle :=
  if (barrierX ≤ p.x ∧ p.phase = Phase.moving) ∧ ¬ p.hasShownStatus = true then
    { p with
        color := getStatusColor p.log.statusCode
        showingStatus := true
        statusDisplayTime := 1
        statusStickX := barrierX
        statusStartY := p.y - p.size - 8
        statusCurrentY := p.y - p.size - 8
        hasShownStatus := true }
  else p

/-- The status-callout decay block of `updateParticle`: while armed,
decrement the remaining display time by `deltaTime`, slide the callout up by
`30 * deltaTime`, and disarm once the remaining time is `≤ 0`. -/
def statusDecay (dt : ℚ) (p : Particle) : Particle :=
  if p.showingStatus = true then
    let t := p.statusDisplayTime - dt
    { p with
        statusDisplayTime := t
        statusCurrentY := p.statusCurrentY - 30 * dt
        showingStatus := if t ≤ 0 then false else p.showingStatus }
  else p

/-- The off-screen cull at the end of `updateParticle`: past
`canvas.width + 50` the particle is marked not-alive, and `passedCount` is
incremented when its phase is `blocked`. -/
def cullOffscreen (w : ℚ) (q : Particle) : Particle × Option FeedGlow × Bool :=
  if w + 50 < q.x then
    ({ q with isAlive := false }, none, decide (q.phase = Phase.blocked))
  else (q, none, false)

/-- The `FeedGlow` literal pushed by `updateParticle` when a rejected
particle reaches the barrier. -/
def mkFeedGlow (gid : String) (barrierX now : ℚ) (p : Particle) : FeedGlow :=
  { id := gid
    x := barrierX
    y := p.y
    startY := p.y
    targetY := 30
    opacity := 0
    size := 4
    color := getStatusColor p.log.statusCode
    speed := 1500
    isAlive := true
    progress := 0
    startTime := now }

/-- Model of `updateParticle` from the canvas component, assembled from the stage
functions above in source order. Arguments beyond the source signature
`(particle, deltaTime)`: `w` is `canvas.width`, `mult` is
`speedRef.current`, `now` is `Date.now()` and `gid` the fresh random id, both
used only when a feed glow is spawned. Returns the updated particle, the
feed glow pushed onto `feedGlows.current` (if any), and whether
`passedCount.current` was incremented. -/
def updateParticle (w mult now : ℚ) (gid : String) (p : Particle) (dt : ℚ) :
    Particle × Option FeedGlow × Bool :=
  let barrierX := w / 2
  if p.phase = Phase.exploding then
    -- explosion animation with fade out; no movement, no cull
    (explodeStep dt p, none, false)
  else
    -- move horizontally, applying the current speed multiplier
    let p1 : Particle := { p with x := p.x + p.speed * mult * dt * 100 }
    -- show status when the particle actually hits the barrier (only once)
    let p2 := armStatus barrierX p1
    -- update status display timer and position (damage-indicator slide)
    let p3 := statusDecay dt p2
    -- add current position to trail, cap length, recompute opacities
    let p4 : Particle := { p3 with trail := trailStep p3.trail p3.x p3.y }
    -- barrier resolution, then the off-screen cull on the fall-through paths
    if barrierX ≤ p4.x ∧ p4.phase = Phase.moving then
      if 400 ≤ p4.log.statusCode then
        -- block and explode; spawn the laser-beam glow (no counter here)
        ({ p4 with phase := Phase.exploding, x := barrierX },
          some (mkFeedGlow gid barrierX now p4), false)
      else
        cullOffscreen w { p4 with phase := Phase.blocked }
    else
      cullOffscreen w p4

/-- Model of `updateFeedGlow` from the canvas component; `now` is `Date.now()`.
The source's `deltaTime` parameter is unused there and omitted here.
Returns the updated glow and whether `blockedCount.current` was
incremented. -/
def updateFeedGlow (now : ℚ) (g : FeedGlow) : FeedGlow × Bool :=
  let elapsed := (now - g.startTime) / 1000
  let totalDistance := g.startY - g.targetY
  let duration := totalDistance / g.speed
  let progress := min (elapsed / duration) 1
  let easeOutCubic := fun (t : ℚ) => 1 - (1 - t) ^ 3
  let easedProgress := easeOutCubic progress
  let y := g.startY - totalDistance * easedProgress
  let opacity :=
    if progress < 1/10 then progress / (1/10)
    else if 9/10 < progress then (1 - progress) / (1/10)
    else 1
  if 1 ≤ progress then
    ({ g with progress := progress, y := y, opacity := opacity, isAlive := false }, true)
  else
    ({ g with progress := progress, y := y, opacity := opacity }, false)

/-- The per-frame environment of a particle update inside `animate`:
canvas width, speed multiplier, wall clock, fresh glow id, delta time. -/
structure PEnv where
  w : ℚ
  mult : ℚ
  now : ℚ
  gid : String
  dt : ℚ
deriving DecidableEq, Repr

/-- The particle component of one `updateParticle` call. -/
def stepP (e : PEnv) (p : Particle) : Particle :=
  (updateParticle e.w e.mult e.now e.gid p e.dt).1

/-- The passed-counter increment of one `updateParticle` call. -/
def stepPInc (e : PEnv) (p : Particle) : Bool :=
  (updateParticle e.w e.mult e.now e.gid p e.dt).2.2

/-- The feed glow spawned by one `updateParticle` call, if any. -/
def stepPGlow (e : PEnv) (p : Particle) : Option FeedGlow :=
  (updateParticle e.w e.mult e.now e.gid p e.dt).2.1

/-- Iterated particle updates. -/
def stepsP (es : List PEnv) (p : Particle) : Particle :=
  es.foldl (fun q e => stepP e q) p

/-- One particle's view of the frame loop: an alive particle is updated once
per frame, a particle marked not-alive is removed from `particlesRef` at the
end of its frame and never updated again. Returns the state at removal (or
after the last frame) and the total number of passed-counter increments this
particle contributed. -/
def runAlive : List PEnv → Particle → Particle × ℕ
  | [], p => (p, 0)
  | e :: es, p =>
    if p.isAlive = true then
      let q := stepP e p
      let r := runAlive es q
      (r.1, (if stepPInc e p then 1 else 0) + r.2)
    else (p, 0)

/-- One feed glow's view of the frame loop: updated once per frame while
alive, culled (and never updated again) once `isAlive` is false. Returns the
final state and the total number of blocked-counter increments. -/
def runGlowAlive : List ℚ → FeedGlow → FeedGlow × ℕ
  | [], g => (g, 0)
  | t :: ts, g =>
    if g.isAlive = true then
      let u := updateFeedGlow t g
      let r := runGlowAlive ts u.1
      (r.1, (if u.2 then 1 else 0) + r.2)
    else (g, 0)

/-- The mutable collections and counters owned by the frame scheduler
(`processedLogIds`, `particlesRef`, `feedGlows`, `blockedCount`,
`passedCount`). -/
structure SimState where
  processed : List String
  particles : List Particle
  glows : List FeedGlow
  blockedCount : ℕ
  passedCount : ℕ
deriving DecidableEq, Repr

/-- The external inputs of one `animate` callback: canvas dimensions, the
current external log array (each log paired with the `Math.random()` draws its
particle creation would consume), the speed multiplier, the frame's delta
time, the wall clock, and the fresh glow id supply for this frame. -/
structure FrameIn where
  w : ℚ
  h : ℚ
  logs : List (LogEntry × Draws)
  mult : ℚ
  dt : ℚ
  now : ℚ
  gid : String
deriving DecidableEq, Repr

/-- The particle-update environment a frame presents to `updateParticle`. -/
def FrameIn.env (f : FrameIn) : PEnv :=
  { w := f.w, mult := f.mult, now := f.now, gid := f.gid, dt := f.dt }

/-- The truly-new logs of a frame: entries of the external array whose id is
not yet in `processedLogIds`. -/
def frameNewLogs (f : FrameIn) (s : SimState) : List (LogEntry × Draws) :=
  f.logs.filter fun ld => !(decide (ld.1.id ∈ s.processed))

/-- The results of this frame's `updateParticle` pass (over the previous
particles plus the particles created for truly-new logs). -/
def frameParticleResults (f : FrameIn) (s : SimState) :
    List (Particle × Option FeedGlow × Bool) :=
  (s.particles ++ (frameNewLogs f s).map fun ld =>
      createParticle f.w f.h f.mult ld.1 ld.2).map
    fun p => updateParticle f.w f.mult f.now f.gid p f.dt

/-- The feed glows pushed onto `feedGlows.current` during this frame's
particle pass. -/
def frameSpawns (f : FrameIn) (s : SimState) : List FeedGlow :=
  (frameParticleResults f s).filterMap fun r => r.2.1

/-- The results of this frame's `updateFeedGlow` pass: the glows already
present plus the ones spawned this frame (the source pushes spawns into
`feedGlows.current` before the glow pass iterates it). -/
def frameGlowResults (f : FrameIn) (s : SimState) : List (FeedGlow × Bool) :=
  (s.glows ++ frameSpawns f s).map (updateFeedGlow f.now)

/-- One `animate` callback: ingest truly-new logs (recording their ids),
update every particle, update every feed glow, apply the counter increments,
and cull dead particles and glows. -/
def frame (f : FrameIn) (s : SimState) : SimState :=
  { processed := s.processed ++ (frameNewLogs f s).map fun ld => ld.1.id
    particles := ((frameParticleResults f s).map fun r => r.1).filter fun p => p.isAlive
    glows := ((frameGlowResults f s).map fun r => r.1).filter fun g => g.isAlive
    blockedCount := s.blockedCount + ((frameGlowResults f s).filter fun r => r.2).length
    passedCount := s.passedCount + ((frameParticleResults f s).filter fun r => r.2.2).length }

/-- Iterated frames. -/
def runFrames (fs : List FrameIn) (s : SimState) : SimState :=
  fs.foldl (fun t f => frame f t) s

/-- The number of particles created for log id `i` over a run of frames. -/
def createdCount : List FrameIn → SimState → String → ℕ
  | [], _, _ => 0
  | f :: fs, s, i =>
    ((frameNewLogs f s).map fun ld => ld.1.id).count i + createdCount fs (frame f s) i

/-- Model of `createParticle` including its failure path: the source throws
`'Canvas not initialized'` when `canvasRef.current` is null. `canvas` carries
the width and height when present. -/
def createParticleE (canvas : Option (ℚ × ℚ)) (mult : ℚ) (lg : LogEntry)
    (d : Draws) : Except String Particle :=
  match canvas with
  | none => Except.error "Canvas not initialized"
  | some wh => Except.ok (createParticle wh.1 wh.2 mult lg d)

/-- The ingestion loop of `animate` with the failure path of
`createParticleE`: for each truly-new log, first record its id in
`processedLogIds`, then create its particle; a throw propagates immediately
(there is no try/catch in `animate`), abandoning the rest of the frame. -/
def ingestE (canvas : Option (ℚ × ℚ)) (mult : ℚ) :
    List (LogEntry × Draws) → List String → List Particle →
    Except String (List String × List Particle)
  | [], proc, ps => Except.ok (proc, ps)
  | ld :: rest, proc, ps =>
    match createParticleE canvas mult ld.1 ld.2 with
    | Except.error e => Except.error e
    | Except.ok p => ingestE canvas mult rest (proc ++ [ld.1.id]) (ps ++ [p])

/-- One `animate` callback with the exception path modelled: when particle
creation throws, the exception escapes the frame callback — no particle of
this frame is updated or drawn, no counter changes, and (because
`requestAnimationFrame` is only called at the end of `animate`) no further
frame is scheduled. -/
def frameE (canvas : Option (ℚ × ℚ)) (f : FrameIn) (s : SimState) :
    Except String SimState :=
  match ingestE canvas f.mult (frameNewLogs f s) s.processed s.particles with
  | Except.error e => Except.error e
  | Except.ok pr =>
    let pres := pr.2.map fun p => updateParticle f.w f.mult f.now f.gid p f.dt
    let gres := (s.glows ++ pres.filterMap fun r => r.2.1).map (updateFeedGlow f.now)
    Except.ok
      { processed := pr.1
        particles := (pres.map fun r => r.1).filter fun p => p.isAlive
        glows := (gres.map fun r => r.1).filter fun g => g.isAlive
        blockedCount := s.blockedCount + (gres.filter fun r => r.2).length
        passedCount := s.passedCount + (pres.filter fun r => r.2.2).length }

/-! ### Concrete instances used by witnesses and counterexamples -/

/-- A successful request log. -/
def logOk : LogEntry :=
  { id := "log_1", ip := "10.0.0.1", timestamp := 0, method := "GET",
    url := "/api/users", statusCode := 200, userAgent := "ua",
    responseTime := none, bytes := none }

/-- A server-error request log. -/
def logErr : LogEntry :=
  { id := "log_2", ip := "10.0.0.2", timestamp := 0, method := "GET",
    url := "/api/users", statusCode := 500, userAgent := "ua",
    responseTime := none, bytes := none }

/-- A rejected request whose empty URL hashes to lane 0 (hash of the empty
string is 0). -/
def logLane0 : LogEntry :=
  { id := "log_3", ip := "10.0.0.3", timestamp := 0, method := "GET",
    url := "", statusCode := 404, userAgent := "ua",
    responseTime := none, bytes := none }

/-- All random draws at 0. -/
def draws0 : Draws := { r1 := 0, r2 := 0, r3 := 0, r4 := 0 }

/-- Lane-Y draw placing the lane-0 particle at `y = 10` on an 800-high
canvas (`minY = 8`, `maxY = 92`, `8 + (1/42) * 84 = 10`). -/
def drawsLane0 : Draws := { r1 := 1/42, r2 := 0, r3 := 0, r4 := 0 }

/-- Canvas width 800, unit speed multiplier, two-second frame. -/
def env0 : PEnv := { w := 800, mult := 1, now := 0, gid := "g", dt := 2 }

/-- A freshly spawned particle of `logErr` on an 800 x 400 canvas. -/
def p500 : Particle := createParticle 800 400 1 logErr draws0

/-- A particle in `blocked` phase already past the right edge. -/
def pBlocked : Particle := { p500 with phase := Phase.blocked, x := 900 }

/-- An exploding particle whose status callout is still armed with half its
display time remaining. -/
def pExplodingArmed : Particle :=
  { p500 with
      phase := Phase.exploding, x := 400, showingStatus := true,
      statusDisplayTime := 1/2, statusCurrentY := 90, hasShownStatus := true }

/-- A feed glow spawned at `y = 130` (above the target, positive duration),
to be driven to completion. -/
def glowDone : FeedGlow :=
  { id := "g", x := 400, y := 130, startY := 130, targetY := 30, opacity := 0,
    size := 4, color := "hsl(var(--error))", speed := 1500, isAlive := true,
    progress := 0, startTime := 0 }

/-- The particle of `logLane0` spawned with `drawsLane0` on an 800 x 800
canvas: it sits at `y = 10`, above the glow target `y = 30`. -/
def c5Particle : Particle := createParticle 800 800 1 logLane0 drawsLane0

/-- The feed glow `updateParticle` spawns for `c5Particle` at the barrier:
`startY = 10 < targetY = 30`, so its travel distance — and hence its
duration — is negative. -/
def c5Glow : FeedGlow :=
  { id := "g", x := 400, y := 10, startY := 10, targetY := 30, opacity := 0,
    size := 4, color := "hsl(var(--error))", speed := 1500, isAlive := true,
    progress := 0, startTime := 0 }

/-- The empty scheduler state. -/
def simState0 : SimState :=
  { processed := [], particles := [], glows := [], blockedCount := 0,
    passedCount := 0 }

/-- A frame with no logs. -/
def frame0 : FrameIn :=
  { w := 800, h := 400, logs := [], mult := 1, dt := 1/60, now := 0, gid := "g" }

/-- A frame delivering the single log `logOk`. -/
def frameLog1 : FrameIn := { frame0 with logs := [(logOk, draws0)] }

/-- A scheduler state holding one alive particle. -/
def simState9 : SimState := { simState0 with particles := [p500] }

/-! ### Projection facts for the stage functions of `updateParticle` -/

@[simp] lemma armStatus_phase (b : ℚ) (p : Particle) : (armStatus b p).phase = p.phase := by
  unfold armStatus; split <;> rfl

@[simp] lemma armStatus_x (b : ℚ) (p : Particle) : (armStatus b p).x = p.x := by
  unfold armStatus; split <;> rfl

@[simp] lemma armStatus_y (b : ℚ) (p : Particle) : (armStatus b p).y = p.y := by
  unfold armStatus; split <;> rfl

@[simp] lemma armStatus_log (b : ℚ) (p : Particle) : (armStatus b p).log = p.log := by
  unfold armStatus; split <;> rfl

@[simp] lemma armStatus_trail (b : ℚ) (p : Particle) : (armStatus b p).trail = p.trail := by
  unfold armStatus; split <;> rfl

@[simp] lemma armStatus_isAlive (b : ℚ) (p : Particle) :
    (armStatus b p).isAlive = p.isAlive := by
  unfold armStatus; split <;> rfl

/-- When the callout has already fired once, the arming block is a no-op:
this is the `hasShownStatus` re-trigger guard of the source. -/
lemma armStatus_of_hasShown (b : ℚ) (p : Particle) (h : p.hasShownStatus = true) :
    armStatus b p = p := by
  unfold armStatus; rw [if_neg]; simp [h]

@[simp] lemma statusDecay_phase (dt : ℚ) (p : Particle) :
    (statusDecay dt p).phase = p.phase := by
  unfold statusDecay; split <;> rfl

@[simp] lemma statusDecay_x (dt : ℚ) (p : Particle) : (statusDecay dt p).x = p.x := by
  unfold statusDecay; split <;> rfl

@[simp] lemma statusDecay_y (dt : ℚ) (p : Particle) : (statusDecay dt p).y = p.y := by
  unfold statusDecay; split <;> rfl

@[simp] lemma statusDecay_log (dt : ℚ) (p : Particle) : (statusDecay dt p).log = p.log := by
  unfold statusDecay; split <;> rfl

@[simp] lemma statusDecay_trail (dt : ℚ) (p : Particle) :
    (statusDecay dt p).trail = p.trail := by
  unfold statusDecay; split <;> rfl

@[simp] lemma statusDecay_isAlive (dt : ℚ) (p : Particle) :
    (statusDecay dt p).isAlive = p.isAlive := by
  unfold statusDecay; split <;> rfl

/-- The armed decay step written out. -/
lemma statusDecay_of_showing (dt : ℚ) (p : Particle) (h : p.showingStatus = true) :
    statusDecay dt p =
      { p with
          statusDisplayTime := p.statusDisplayTime - dt
          statusCurrentY := p.statusCurrentY - 30 * dt
          showingStatus :=
            if p.statusDisplayTime - dt ≤ 0 then false else p.showingStatus } := by
  unfold statusDecay; rw [if_pos h]

@[simp] lemma explodeStep_phase (dt : ℚ) (p : Particle) :
    (explodeStep dt p).phase = p.phase := rfl

@[simp] lemma explodeStep_trail (dt : ℚ) (p : Particle) :
    (explodeStep dt p).trail = p.trail := rfl

/-! ### Trail facts -/

/-- The (x, y) positions of a trail, oldest first. -/
def trailPos (t : List TrailPoint) : List (ℚ × ℚ) := t.map fun pt => (pt.x, pt.y)

lemma trailStep_length (t : List TrailPoint) (x y : ℚ) :
    (trailStep t x y).length = if 10 < t.length + 1 then t.length else t.length + 1 := by
  unfold trailStep
  simp only [List.length_mapIdx, List.length_append, List.length_singleton]
  split_ifs with h1 <;> simp_all [List.length_tail]

lemma trailPos_mapIdx (l : List TrailPoint) (f : ℕ → ℚ) :
    trailPos (l.mapIdx fun i pt => { pt with opacity := f i }) = trailPos l := by
  apply List.ext_get
  · simp [trailPos, List.length_mapIdx]
  · intro i h1 h2
    simp only [trailPos, List.get_eq_getElem, List.getElem_map]
    have h3 : i < l.length := by simpa [trailPos] using h2
    have h4 := List.get_mapIdx l (fun i pt => { pt with opacity := f i }) i h3
    simp only [List.get_eq_getElem, Fin.val_mk] at h4
    rw [h4]

lemma trailStep_positions (t : List TrailPoint) (x y : ℚ) :
    trailPos (trailStep t x y) =
      (trailPos t ++ [(x, y)]).drop (if 10 < t.length + 1 then 1 else 0) := by
  unfold trailStep
  rw [trailPos_mapIdx]
  have hlen : (t ++ [(⟨x, y, 1⟩ : TrailPoint)]).length = t.length + 1 := by simp
  rw [hlen]
  split_ifs with h
  · cases t with
    | nil => simp at h
    | cons a t => simp [trailPos]
  · simp [trailPos]

lemma trailStep_opacity (t : List TrailPoint) (x y : ℚ) (i : ℕ)
    (hi : i < (trailStep t x y).length) :
    ((trailStep t x y).get ⟨i, hi⟩).opacity =
      ((i : ℚ) + 1) / ((trailStep t x y).length : ℚ) * (4/5) := by
  unfold trailStep at *
  simp only [List.length_mapIdx] at hi
  rw [List.get_mapIdx _ _ _ hi]
  simp [List.length_mapIdx]

/-! ### Per-step facts of `updateParticle` -/

lemma stepP_exploding (e : PEnv) (p : Particle) (h : p.phase = Phase.exploding) :
    stepP e p = explodeStep e.dt p := by
  simp [stepP, updateParticle, h]

lemma stepP_phase_moving (e : PEnv) (p : Particle) (h : p.phase = Phase.moving) :
    (stepP e p).phase =
      if e.w / 2 ≤ p.x + p.speed * e.mult * e.dt * 100 then
        (if 400 ≤ p.log.statusCode then Phase.exploding else Phase.blocked)
      else Phase.moving := by
  simp only [stepP, updateParticle, h]
  split_ifs with h1 h2 h3 h4 h5 <;> simp_all [cullOffscreen] <;> split_ifs <;> rfl

lemma stepP_phase_blocked (e : PEnv) (p : Particle) (h : p.phase = Phase.blocked) :
    (stepP e p).phase = Phase.blocked := by
  simp only [stepP, updateParticle, h]
  split_ifs <;> simp_all [cullOffscreen]
  split_ifs <;> rfl

lemma stepP_phase_not_moving (e : PEnv) (p : Particle) (h : p.phase ≠ Phase.moving) :
    (stepP e p).phase = p.phase := by
  cases hp : p.phase with
  | moving => exact absurd hp h
  | blocked => rw [stepP_phase_blocked e p hp]
  | exploding => rw [stepP_exploding e p hp, explodeStep_phase]; exact hp


lemma stepsP_phase_not_moving (es : List PEnv) (p : Particle) (h : p.phase ≠ Phase.moving) :
    (stepsP es p).phase = p.phase := by
  induction es generalizing p with
  | nil => rfl
  | cons e es ih =>
    have h1 := stepP_phase_not_moving e p h
    simp only [stepsP, List.foldl_cons]
    rw [show (List.foldl (fun q e => stepP e q) (stepP e p) es) = stepsP es (stepP e p) from rfl,
      ih (stepP e p) (by rw [h1]; exact h), h1]

lemma stepP_trail_not_exploding (e : PEnv) (p : Particle) (h : ¬ p.phase = Phase.exploding) :
    (stepP e p).trail = trailStep p.trail (p.x + p.speed * e.mult * e.dt * 100) p.y := by
  simp only [stepP, updateParticle, h, if_false]
  split_ifs <;> simp_all [cullOffscreen] <;> split_ifs <;> rfl

lemma stepPInc_exploding (e : PEnv) (p : Particle) (h : p.phase = Phase.exploding) :
    stepPInc e p = false := by
  simp [stepPInc, updateParticle, h]

lemma stepPInc_blocked (e : PEnv) (p : Particle) (h : p.phase = Phase.blocked) :
    stepPInc e p = decide (e.w + 50 < p.x + p.speed * e.mult * e.dt * 100) := by
  simp only [stepPInc, updateParticle, h]
  split_ifs with h1 h2 <;> simp_all [cullOffscreen] <;> split_ifs <;> simp_all

lemma stepPInc_imp (e : PEnv) (p : Particle) (h : stepPInc e p = true) :
    (stepP e p).isAlive = false ∧ (stepP e p).phase = Phase.blocked := by
  simp only [stepPInc, stepP, updateParticle] at *
  split_ifs at * <;> simp_all [cullOffscreen] <;> split_ifs at * <;> simp_all

lemma stepP_dead_charac (e : PEnv) (p : Particle) (hp : p.isAlive = true)
    (hd : (stepP e p).isAlive = false) :
    (stepPInc e p = true ↔ (stepP e p).phase = Phase.blocked) := by
  simp only [stepPInc, stepP, updateParticle, explodeStep] at *
  split_ifs at * <;> simp_all [cullOffscreen] <;> split_ifs at * <;> simp_all

/-! ### Frame-loop facts -/

lemma runAlive_dead (es : List PEnv) (p : Particle) (h : p.isAlive = false) :
    runAlive es p = (p, 0) := by
  cases es <;> simp [runAlive, h]

lemma runAlive_spec (es : List PEnv) (p : Particle) (hp : p.isAlive = true) :
    (runAlive es p).2 ≤ 1
    ∧ ((runAlive es p).1.isAlive = false →
        (runAlive es p).2 = if (runAlive es p).1.phase = Phase.blocked then 1 else 0) := by
  induction es generalizing p with
  | nil =>
    refine ⟨by simp [runAlive], ?_⟩
    intro hd
    rw [show (runAlive [] p).1 = p from rfl] at hd
    rw [hp] at hd; cases hd
  | cons e es ih =>
    simp only [runAlive, hp, if_true]
    by_cases hq : (stepP e p).isAlive = true
    · have hinc : stepPInc e p = false := by
        by_contra hc
        have h1 := (stepPInc_imp e p (by simpa using hc)).1
        rw [h1] at hq; cases hq
      rw [hinc]
      simpa using ih (stepP e p) hq
    · have hqd : (stepP e p).isAlive = false := by simpa using hq
      rw [runAlive_dead es _ hqd]
      have hiff := stepP_dead_charac e p hp hqd
      constructor
      · split_ifs <;> simp
      · intro _
        by_cases hI : stepPInc e p = true
        · rw [hI, if_pos (hiff.mp hI)]
          simp
        · have hIf : stepPInc e p = false := by simpa using hI
          rw [hIf, if_neg (fun hb => hI (hiff.mpr hb))]
          simp

lemma runGlowAlive_dead (ts : List ℚ) (g : FeedGlow) (h : g.isAlive = false) :
    runGlowAlive ts g = (g, 0) := by
  cases ts <;> simp [runGlowAlive, h]

lemma updateFeedGlow_inc_iff (t : ℚ) (g : FeedGlow) :
    (updateFeedGlow t g).2 = true ↔ 1 ≤ (updateFeedGlow t g).1.progress := by
  simp only [updateFeedGlow]
  split_ifs with h <;> simp [h]

lemma updateFeedGlow_inc_dead (t : ℚ) (g : FeedGlow)
    (h : (updateFeedGlow t g).2 = true) :
    (updateFeedGlow t g).1.isAlive = false := by
  simp only [updateFeedGlow] at *
  split_ifs at * <;> simp_all

lemma runGlowAlive_le_one (ts : List ℚ) (g : FeedGlow) :
    (runGlowAlive ts g).2 ≤ 1 := by
  induction ts generalizing g with
  | nil => simp [runGlowAlive]
  | cons t ts ih =>
    by_cases hg : g.isAlive = true
    · simp only [runGlowAlive, hg, if_true]
      by_cases hI : (updateFeedGlow t g).2 = true
      · rw [runGlowAlive_dead ts _ (updateFeedGlow_inc_dead t g hI), hI]
        simp
      · have hIf : (updateFeedGlow t g).2 = false := by simpa using hI
        rw [hIf]
        simpa using ih (updateFeedGlow t g).1
    · have : g.isAlive = false := by simpa using hg
      rw [runGlowAlive_dead _ _ this]
      simp

lemma frame_blockedCount (f : FrameIn) (s : SimState) :
    (frame f s).blockedCount =
      s.blockedCount + ((frameGlowResults f s).filter fun r => r.2).length := rfl

lemma frame_processed (f : FrameIn) (s : SimState) :
    (frame f s).processed = s.processed ++ (frameNewLogs f s).map fun ld => ld.1.id := rfl

lemma frame_blockedCount_of_no_completion (f : FrameIn) (s : SimState)
    (h : ∀ g ∈ s.glows ++ frameSpawns f s, (updateFeedGlow f.now g).2 = false) :
    (frame f s).blockedCount = s.blockedCount := by
  rw [frame_blockedCount]
  have : (frameGlowResults f s).filter (fun r => r.2) = [] := by
    rw [List.filter_eq_nil_iff]
    intro r hr
    obtain ⟨g, hg, rfl⟩ := List.mem_map.mp hr
    simp [h g hg]
  rw [this]
  rfl

lemma runFrames_processed_append (fs : List FrameIn) (s : SimState) :
    ∃ t, (runFrames fs s).processed = s.processed ++ t := by
  induction fs generalizing s with
  | nil => exact ⟨[], by simp [runFrames]⟩
  | cons f fs ih =>
    obtain ⟨t, ht⟩ := ih (frame f s)
    refine ⟨(frameNewLogs f s).map (fun ld => ld.1.id) ++ t, ?_⟩
    rw [show runFrames (f :: fs) s = runFrames fs (frame f s) from rfl, ht,
      frame_processed, List.append_assoc]

lemma createdCount_zero_of_processed (fs : List FrameIn) (s : SimState) (i : String)
    (h : i ∈ s.processed) : createdCount fs s i = 0 := by
  induction fs generalizing s with
  | nil => rfl
  | cons f fs ih =>
    have h1 : ((frameNewLogs f s).map fun ld => ld.1.id).count i = 0 := by
      rw [List.count_eq_zero]
      intro hmem
      obtain ⟨ld, hld, hid⟩ := List.mem_map.mp hmem
      have h2 := List.of_mem_filter hld
      rw [hid] at h2
      simp [h] at h2
    rw [createdCount, h1, Nat.zero_add]
    exact ih (frame f s) (by rw [frame_processed]; exact List.mem_append_left _ h)

lemma createdCount_le_one (fs : List FrameIn) (s : SimState) (i : String)
    (hnd : ∀ f ∈ fs, ((f.logs.map fun ld => ld.1.id)).Nodup) :
    createdCount fs s i ≤ 1 := by
  induction fs generalizing s with
  | nil => simp [createdCount]
  | cons f fs ih =>
    by_cases hc : i ∈ s.processed
    · rw [createdCount_zero_of_processed _ _ _ hc]
      exact Nat.zero_le 1
    · rw [createdCount]
      have hle : ((frameNewLogs f s).map fun ld => ld.1.id).count i ≤ 1 := by
        calc ((frameNewLogs f s).map fun ld => ld.1.id).count i
            ≤ ((f.logs.map fun ld => ld.1.id)).count i :=
              List.Sublist.count_le ((List.filter_sublist _).map _) i
          _ ≤ 1 := List.nodup_iff_count_le_one.mp (hnd f (List.mem_cons_self f fs)) i
      by_cases hcc : ((frameNewLogs f s).map fun ld => ld.1.id).count i = 0
      · rw [hcc, Nat.zero_add]
        exact ih (frame f s) (fun f' hf' => hnd f' (List.mem_cons_of_mem f hf'))
      · have hmem : i ∈ (frameNewLogs f s).map fun ld => ld.1.id := by
          by_contra hn
          exact hcc (List.count_eq_zero.mpr hn)
        have hproc : i ∈ (frame f s).processed := by
          rw [frame_processed]; exact List.mem_append_right _ hmem
        rw [createdCount_zero_of_processed fs (frame f s) i hproc]
        omega

lemma stepP_trail_le (e : PEnv) (p : Particle) (h : p.trail.length ≤ 10) :
    (stepP e p).trail.length ≤ 10 := by
  by_cases hp : p.phase = Phase.exploding
  · rw [stepP_exploding e p hp, explodeStep_trail]
    exact h
  · rw [stepP_trail_not_exploding e p hp, trailStep_length]
    split_ifs <;> omega

lemma stepsP_trail_le (es : List PEnv) (p : Particle) (h : p.trail.length ≤ 10) :
    (stepsP es p).trail.length ≤ 10 := by
  induction es generalizing p with
  | nil => exact h
  | cons e es ih =>
    exact ih (stepP e p) (stepP_trail_le e p h)

lemma takeWhile_append_qmark (u q : List Char) :
    (u ++ '?' :: q).takeWhile (fun c => c != '?') = u.takeWhile (fun c => c != '?') := by
  induction u with
  | nil => simp [List.takeWhile]
  | cons a u ih =>
    by_cases ha : (a != '?') = true
    · simp only [List.cons_append, List.takeWhile_cons, ha, if_true, ih]
    · simp [List.takeWhile_cons, ha]

/-! ### Claim theorems -/

/-- C1: a particle's phase transition out of `moving` fires exactly on the
first update whose post-movement x reaches the barrier `canvas.width / 2`:
while `moving`, the update leaves `moving` iff the moved x is at or past the
barrier, and then lands in `exploding` when `statusCode ≥ 400` and in
`blocked` otherwise; once the phase is not `moving`, any further sequence of
updates (including updates past the particle's natural death) leaves the
phase unchanged, so no second transition ever occurs. -/
theorem c1_single_phase_transition (p : Particle) (e : PEnv) (es : List PEnv) :
    (p.phase = Phase.moving →
      ((¬ (stepP e p).phase = Phase.moving) ↔
        e.w / 2 ≤ p.x + p.speed * e.mult * e.dt * 100)
      ∧ (e.w / 2 ≤ p.x + p.speed * e.mult * e.dt * 100 →
        (stepP e p).phase =
          if 400 ≤ p.log.statusCode then Phase.exploding else Phase.blocked))
    ∧ (¬ p.phase = Phase.moving → (stepsP es p).phase = p.phase) := by
  refine ⟨fun hm => ⟨?_, fun hx => by rw [stepP_phase_moving e p hm, if_pos hx]⟩,
    fun h => stepsP_phase_not_moving es p h⟩
  rw [stepP_phase_moving e p hm]
  split_ifs with h1 h2 <;> simp [h1]

/-- Witness for C1: the freshly spawned `logErr` particle (status 500)
crosses the barrier on a two-second frame and lands in `exploding`; an
already-exploding particle stays `exploding` across further updates. -/
theorem c1_witness :
    (stepP env0 p500).phase = Phase.exploding
    ∧ (stepsP [env0] pExplodingArmed).phase = Phase.exploding := by
  constructor
  · have h := ((c1_single_phase_transition p500 env0 []).1 (by with_unfolding_all decide)).2 (by with_unfolding_all decide)
    rw [h]
    with_unfolding_all decide
  · have h := (c1_single_phase_transition pExplodingArmed env0 [env0]).2 (by with_unfolding_all decide)
    rw [h]
    with_unfolding_all decide

/-- C10: an update of an `exploding` particle changes only `size`,
`glowIntensity` and `isAlive`: position, color, trail and every
status-callout field are untouched, no trail point is appended, no feed glow
is spawned and the passed counter is not incremented. -/
theorem c10_exploding_update_frame (w mult now : ℚ) (gid : String) (p : Particle)
    (dt : ℚ) (h : p.phase = Phase.exploding) :
    ((updateParticle w mult now gid p dt).1.x = p.x)
    ∧ ((updateParticle w mult now gid p dt).1.y = p.y)
    ∧ ((updateParticle w mult now gid p dt).1.color = p.color)
    ∧ ((updateParticle w mult now gid p dt).1.trail = p.trail)
    ∧ ((updateParticle w mult now gid p dt).1.showingStatus = p.showingStatus)
    ∧ ((updateParticle w mult now gid p dt).1.statusDisplayTime = p.statusDisplayTime)
    ∧ ((updateParticle w mult now gid p dt).1.statusStickX = p.statusStickX)
    ∧ ((updateParticle w mult now gid p dt).1.statusStartY = p.statusStartY)
    ∧ ((updateParticle w mult now gid p dt).1.statusCurrentY = p.statusCurrentY)
    ∧ ((updateParticle w mult now gid p dt).1.hasShownStatus = p.hasShownStatus)
    ∧ ((updateParticle w mult now gid p dt).1.phase = Phase.exploding)
    ∧ ((updateParticle w mult now gid p dt).2.1 = none)
    ∧ ((updateParticle w mult now gid p dt).2.2 = false) := by
  simp [updateParticle, h, explodeStep]

/-- Witness for C10: evaluating the exploding armed particle. -/
theorem c10_witness :
    (updateParticle 800 1 0 "g" pExplodingArmed (1/10)).1.trail = pExplodingArmed.trail
    ∧ (updateParticle 800 1 0 "g" pExplodingArmed (1/10)).2.1 = none :=
  ⟨(c10_exploding_update_frame 800 1 0 "g" pExplodingArmed (1/10) (by with_unfolding_all decide)).2.2.2.1,
   (c10_exploding_update_frame 800 1 0 "g" pExplodingArmed (1/10) (by with_unfolding_all decide)).2.2.2.2.2.2.2.2.2.2.2.1⟩

/-- C4 counterexample: an `exploding` particle with its callout still armed
(`showingStatus = true`, half the display time remaining). The update leaves
the callout's remaining time and y-position untouched — the exploding branch
returns before the callout-decay block — contradicting the claim that decay
is applied on every update independent of phase. -/
theorem c4_counterexample :
    pExplodingArmed.phase = Phase.exploding
    ∧ pExplodingArmed.showingStatus = true
    ∧ pExplodingArmed.statusDisplayTime = 1/2
    ∧ (updateParticle 800 1 0 "g" pExplodingArmed (1/10)).1.statusDisplayTime = 1/2
    ∧ ¬ ((updateParticle 800 1 0 "g" pExplodingArmed (1/10)).1.statusDisplayTime
          = pExplodingArmed.statusDisplayTime - 1/10)
    ∧ (updateParticle 800 1 0 "g" pExplodingArmed (1/10)).1.statusCurrentY
        = pExplodingArmed.statusCurrentY := by
  with_unfolding_all decide

/-- C4 as amended: callout decay applies on every update of a particle that
is *not* in phase `exploding` (for exploding particles the update returns
before the decay block, freezing the callout): with the callout armed and the
one-shot flag set, the update decrements the remaining time by `deltaTime`,
slides the callout up by `30 * deltaTime`, and disarms exactly when the
decremented time reaches `≤ 0`. -/
theorem c4_callout_decay (w mult now : ℚ) (gid : String) (p : Particle) (dt : ℚ)
    (h1 : ¬ p.phase = Phase.exploding) (h2 : p.showingStatus = true)
    (h3 : p.hasShownStatus = true) :
    (updateParticle w mult now gid p dt).1.statusDisplayTime = p.statusDisplayTime - dt
    ∧ (updateParticle w mult now gid p dt).1.statusCurrentY = p.statusCurrentY - 30 * dt
    ∧ (updateParticle w mult now gid p dt).1.showingStatus
        = (if p.statusDisplayTime - dt ≤ 0 then false else true) := by
  simp only [updateParticle, h1, if_false]
  rw [armStatus_of_hasShown _ _ (by simpa using h3)]
  rw [statusDecay_of_showing _ _ (by simpa using h2)]
  simp only [cullOffscreen]
  split_ifs <;> simp_all

/-- Witness for C4 (amended): a still-`moving` armed particle sees its
callout decay by the frame's `deltaTime`. -/
theorem c4_witness :
    (updateParticle 800 1 0 "g"
        { pExplodingArmed with phase := Phase.moving, x := 0, speed := 0 } (1/10)).1.statusDisplayTime
      = (1/2 : ℚ) - 1/10 :=
  (c4_callout_decay 800 1 0 "g"
    { pExplodingArmed with phase := Phase.moving, x := 0, speed := 0 } (1/10)
    (by with_unfolding_all decide) (by with_unfolding_all decide)
    (by with_unfolding_all decide)).1

/-- C7: lane assignment is a pure function of the request path with the
query component stripped — appending `"?" ++ q` to any url gives the same
lane (the hash only sees the characters before the first `'?'`) — and the
result, `abs(hash) mod 8`, always lies in `{0, ..., 7}`. Determinism across
calls is definitional: `getUrlLane` is a function of the url alone. -/
theorem c7_lane_assignment (u q : String) :
    getUrlLane (u ++ "?" ++ q) = getUrlLane u ∧ getUrlLane u < 8 := by
  constructor
  · have hdata : (u ++ "?" ++ q).data = u.data ++ '?' :: q.data := by
      have h1 : ("?" : String).data = ['?'] := rfl
      simp [String.data_append, h1]
    unfold getUrlLane getUrlLaneList
    rw [hdata, takeWhile_append_qmark]
  · exact Nat.mod_lt _ (by norm_num)

/-- C8: the trail block keeps the length capped at 10 at the end of every
update (a cap-respecting trail stays cap-respecting, and the same holds
across any iterated particle updates), eviction removes the oldest point
first — the positions after the step are the old positions plus the new one,
dropped from the front exactly when the cap is exceeded — and after the step
every point's opacity is the linear ramp `(index + 1) / length * 0.8`, so the
most recent point is most opaque. -/
theorem c8_trail_cap_fifo_ramp (t : List TrailPoint) (x y : ℚ) (i : ℕ)
    (p : Particle) (es : List PEnv) :
    (t.length ≤ 10 → (trailStep t x y).length ≤ 10)
    ∧ trailPos (trailStep t x y) =
        (trailPos t ++ [(x, y)]).drop (if 10 < t.length + 1 then 1 else 0)
    ∧ (∀ hi : i < (trailStep t x y).length,
        ((trailStep t x y).get ⟨i, hi⟩).opacity =
          ((i : ℚ) + 1) / ((trailStep t x y).length : ℚ) * (4/5))
    ∧ (p.trail.length ≤ 10 → (stepsP es p).trail.length ≤ 10) := by
  refine ⟨fun h => ?_, trailStep_positions t x y,
    fun hi => trailStep_opacity t x y i hi, fun h => stepsP_trail_le es p h⟩
  rw [trailStep_length]
  split_ifs <;> omega

/-- Witness for C8: a fresh trail grows to one point of opacity `0.08`; a
freshly spawned particle keeps its trail within the cap over a frame. -/
theorem c8_witness :
    (trailStep [] 1 2).length ≤ 10
    ∧ trailPos (trailStep [] 1 2) = [(1, 2)]
    ∧ (stepsP [env0] p500).trail.length ≤ 10 := by
  refine ⟨(c8_trail_cap_fifo_ramp [] 1 2 0 p500 [env0]).1 (by decide), ?_, 
    (c8_trail_cap_fifo_ramp [] 1 2 0 p500 [env0]).2.2.2 (by with_unfolding_all decide)⟩
  rw [(c8_trail_cap_fifo_ramp [] 1 2 0 p500 [env0]).2.1]
  with_unfolding_all decide

/-- C3: within the frame loop (an alive particle is updated once per frame
and a dead one is culled and never updated again), a particle contributes at
most one increment to the passed counter; when it dies, the total is exactly
1 if it died in phase `blocked` and 0 otherwise — in particular a particle
that dies `exploding` never touches the counter (the exploding branch
returns before the cull). Moreover a `blocked` particle increments exactly
when its moved x exceeds `canvas.width + 50`, and an `exploding` particle
never increments. -/
theorem c3_passed_counter_per_particle (p : Particle) (e : PEnv) (es : List PEnv)
    (hp : p.isAlive = true) :
    (runAlive es p).2 ≤ 1
    ∧ ((runAlive es p).1.isAlive = false →
        (runAlive es p).2 = if (runAlive es p).1.phase = Phase.blocked then 1 else 0)
    ∧ (p.phase = Phase.blocked →
        (stepPInc e p = true ↔ e.w + 50 < p.x + p.speed * e.mult * e.dt * 100))
    ∧ (p.phase = Phase.exploding → stepPInc e p = false) := by
  refine ⟨(runAlive_spec es p hp).1, (runAlive_spec es p hp).2, fun hb => ?_,
    fun hx => stepPInc_exploding e p hx⟩
  rw [stepPInc_blocked e p hb]
  simp

/-- Witness for C3: the off-screen `blocked` particle is culled on its first
update and contributes exactly one passed increment. -/
theorem c3_witness :
    (runAlive [env0] pBlocked).2 ≤ 1
    ∧ (runAlive [env0] pBlocked).2 = 1 := by
  constructor
  · exact (c3_passed_counter_per_particle pBlocked env0 [env0]
      (by with_unfolding_all decide)).1
  · have h := (c3_passed_counter_per_particle pBlocked env0 [env0]
      (by with_unfolding_all decide)).2.1 (by with_unfolding_all decide)
    rw [h]
    with_unfolding_all decide

/-- C2: the blocked counter is driven only by feed-glow completion. An
`updateFeedGlow` call increments iff it drives `progress` to 1 (the stored
progress is `min (elapsed / duration) 1`, so reaching 1 is the only way to
hit `progress ≥ 1`), and any incrementing update also destroys the effect;
within the frame loop — which culls dead effects at the end of each frame —
one effect therefore contributes at most one increment over its whole life;
and a frame in which no glow update completes (in particular one that merely
spawns effects) leaves the blocked counter unchanged. -/
theorem c2_blocked_counter_completion (g : FeedGlow) (t : ℚ) (ts : List ℚ)
    (f : FrameIn) (s : SimState) :
    ((updateFeedGlow t g).2 = true ↔ 1 ≤ (updateFeedGlow t g).1.progress)
    ∧ ((updateFeedGlow t g).2 = true → (updateFeedGlow t g).1.isAlive = false)
    ∧ (runGlowAlive ts g).2 ≤ 1
    ∧ ((∀ x ∈ s.glows ++ frameSpawns f s, (updateFeedGlow f.now x).2 = false) →
        (frame f s).blockedCount = s.blockedCount) :=
  ⟨updateFeedGlow_inc_iff t g, updateFeedGlow_inc_dead t g,
   runGlowAlive_le_one ts g, frame_blockedCount_of_no_completion f s⟩

/-- Witness for C2: `glowDone` (100 px above its target, 1500 px/s, duration
1/15 s) completes one second in: that update destroys it, its loop total is
at most one, and an empty frame leaves the counter unchanged. -/
theorem c2_witness :
    (updateFeedGlow 1000 glowDone).1.isAlive = false
    ∧ (runGlowAlive [1000, 2000] glowDone).2 ≤ 1
    ∧ (frame frame0 simState0).blockedCount = simState0.blockedCount :=
  ⟨(c2_blocked_counter_completion glowDone 1000 [] frame0 simState0).2.1
      (by with_unfolding_all decide),
   (c2_blocked_counter_completion glowDone 1000 [1000, 2000] frame0 simState0).2.2.1,
   (c2_blocked_counter_completion glowDone 1000 [] frame0 simState0).2.2.2
      (by with_unfolding_all decide)⟩

/-- C5 (code bug): a rejected particle can spawn a feed glow whose start y
lies above the target y of 30 — `c5Particle` spawns at `y = 10` in lane 0
(the y-band of lane 0 starts at `8 < 30` for every canvas height) and its
barrier contact pushes exactly the glow `c5Glow` with `startY = 10`,
`targetY = 30`. For that glow the travel distance, and hence the duration
`totalDistance / speed`, is negative, so `progress = min (elapsed/duration) 1`
is negative on every later update — `progress` leaves `[0, 1]` — and
`progress ≥ 1` never fires: the effect is never destroyed (shown here one
second and one hour in). -/
theorem c5_negative_progress_never_destroyed :
    c5Particle.phase = Phase.moving
    ∧ c5Particle.isAlive = true
    ∧ c5Particle.y = 10
    ∧ (updateParticle 800 1 0 "g" c5Particle 2).2.1 = some c5Glow
    ∧ c5Glow.startY < c5Glow.targetY
    ∧ (updateFeedGlow 1000 c5Glow).1.progress = -75
    ∧ (updateFeedGlow 1000 c5Glow).1.progress < 0
    ∧ (updateFeedGlow 1000 c5Glow).1.isAlive = true
    ∧ (updateFeedGlow 1000 c5Glow).2 = false
    ∧ (updateFeedGlow 3600000 c5Glow).1.isAlive = true
    ∧ (updateFeedGlow 3600000 c5Glow).2 = false := by
  with_unfolding_all decide

/-- C6: ingestion is idempotent per log id. Over any run of frames whose
per-frame external arrays carry no internally duplicated id (ids are
globally unique in the delivered array), at most one particle is ever
created for a given id — duplicate redelivery across frames, reordering, or
reappearance after truncation included — an id already recorded in
`processedLogIds` never spawns again, and the processed-id record only ever
grows (old entries are never removed). -/
theorem c6_idempotent_ingestion (fs : List FrameIn) (s : SimState) (i : String)
    (hnd : ∀ f ∈ fs, ((f.logs.map fun ld => ld.1.id)).Nodup) :
    createdCount fs s i ≤ 1
    ∧ (i ∈ s.processed → createdCount fs s i = 0)
    ∧ ∃ t, (runFrames fs s).processed = s.processed ++ t :=
  ⟨createdCount_le_one fs s i hnd,
   fun h => createdCount_zero_of_processed fs s i h,
   runFrames_processed_append fs s⟩

/-- Witness for C6: delivering the array `[logOk]` (id `"log_1"`) in two
consecutive frames creates exactly one particle for `"log_1"`. -/
theorem c6_witness :
    createdCount [frameLog1, frameLog1] simState0 "log_1" ≤ 1
    ∧ createdCount [frameLog1, frameLog1] simState0 "log_1" = 1 := by
  constructor
  · exact (c6_idempotent_ingestion [frameLog1, frameLog1] simState0 "log_1"
      (by with_unfolding_all decide)).1
  · with_unfolding_all decide

/-- C9 (code bug): `createParticle` throws `'Canvas not initialized'` when
the drawing surface is not sized, and `animate` wraps no part of its
update/draw cycle in a try/catch — so with one alive particle in the state
and one new log to ingest, the frame evaluates to the propagated exception:
no particle of the frame is updated or drawn, the failing log's particle is
not "marked not-alive", and (since `requestAnimationFrame` is only reached
at the end of the callback) the loop schedules no further frame. With a
sized canvas the same frame succeeds and agrees with the exception-free
frame function. -/
theorem c9_creation_failure_escapes_frame :
    frameE none frameLog1 simState9 = Except.error "Canvas not initialized"
    ∧ frameE (some (800, 400)) frameLog1 simState9 = Except.ok (frame frameLog1 simState9) := by
  constructor
  · rfl
  · rfl
